import Mathlib

/-!
Shallow embedding of the reconcile (fetch-decide-act) logic of the Azure
Ansible modules in this repository, together with theorems settling the
frozen claims about the natural-language specification.

Modules embedded (from src/plugins/modules/):
- azure_rm_monitordatacollectionendpoint.py  (mdce*)
- azure_rm_monitordatacollectionrule.py      (mdcr*)
- azure_rm_datafactory.py                    (df*)
- azure_rm_hybridcompute.py                  (hc*)
- azure_rm_adserviceprincipal.py             (adsp*)
- azure_rm_openshiftmanagedcluster.py        (os*)

Remote I/O is made explicit: each embedded `exec_module` takes the outcome of
the SDK/REST fetch call as a `FetchOutcome` value and records which mutation
hooks (create / update / delete) it invokes in a `RunResult`.
-/

/-- Outcome of the remote fetch call made by a module's lookup helper, at the
granularity that module's `except` clause distinguishes.  `transportError`
stands for any failure other than the API's 404/not-found answer (an HTTP 500
`HttpResponseError` and a connection failure alike): this granularity is
faithful for the OpenShift and AD service principal modules, whose lookup
catches every `Exception`, and for the datafactory and hybridcompute modules,
whose lookup catches only `ResourceNotFoundError` so that every other failure
propagates. -/
inductive FetchOutcome (α : Type) where
  | found (a : α)
  | notFound
  | transportError (msg : String)
deriving DecidableEq, Repr

/-- Outcome of the SDK get call in the two monitor data collection modules,
whose lookup helper catches exactly `HttpResponseError`.  That class requires
an HTTP response: `notFound` is the 404 `HttpResponseError`, `httpError` any
other HTTP error response (e.g. a 500) — both are caught by the clause —
while `connectionError` is a `ServiceRequestError`-class transport failure
with no HTTP response, which is not an `HttpResponseError` and is not
caught. -/
inductive HttpFetchOutcome (α : Type) where
  | found (a : α)
  | notFound
  | httpError (msg : String)
  | connectionError (msg : String)
deriving DecidableEq, Repr

/-- A remote mutation hook invocation. -/
inductive MutCall where
  | create
  | update
  | delete
deriving DecidableEq, Repr

/-- Result of one module invocation: the reported `changed` flag and the list
of mutation hooks that were invoked (in order). -/
structure RunResult where
  changed : Bool
  calls : List MutCall
deriving DecidableEq, Repr

/-- Tag dictionaries, as association lists of key/value pairs. -/
abbrev Tags := List (String × String)

/-- Modelled from the spec: the Tag Merge collaborator
`merge(existing_tags, desired_tags) -> (changed, merged_tags)` (section 6 of
the spec; the implementation `update_tags` lives in
`module_utils/azure_rm_common.py`, which is not under `src/`).  Per the spec's
words, merging combines existing and desired key/value tag sets without losing
untouched keys: every existing key not mentioned in `desired` is preserved,
desired keys take their desired values, and `changed` reports whether any
desired key was absent from `existing` or carried a different value. -/
def mergeTags (existing desired : Tags) : Bool × Tags :=
  let changed := desired.any (fun kv => existing.lookup kv.1 ≠ some kv.2)
  let merged := existing.filter (fun kv => desired.lookup kv.1 = none) ++ desired
  (changed, merged)

/-! ## azure_rm_monitordatacollectionendpoint.py -/

/-- The fields of the remote Data Collection Endpoint used by the module
(`to_dict` projection). -/
structure MdceRemote where
  tags : Tags
  description : Option String
  kind : Option String
  networkAclsPublicAccess : Option String
deriving DecidableEq, Repr

/-- Module parameters of `azure_rm_monitordatacollectionendpoint` relevant to
the reconcile decision (`state`, check mode, and the desired attributes).
A `none` desired attribute models an unset module parameter. -/
structure MdceParams where
  state : String
  checkMode : Bool
  tags : Tags
  description : Option String
  kind : Option String
  networkAclsPublicAccess : Option String
deriving DecidableEq, Repr

/-- `AzureRMMonitorDataCollectionEndpoint.get_by_name` (lines 304-312): the
`try` body returns the fetched resource; `except HttpResponseError` catches
every HTTP error response — the 404 and e.g. a 500 alike — only logs it, and
the function returns `to_dict(None) = None`.  A connection-level failure
(`ServiceRequestError` class) is not an `HttpResponseError`: it is not caught
and propagates out of `get_by_name` (modelled as `.error`). -/
def mdceGetByName (f : HttpFetchOutcome MdceRemote) : Except String (Option MdceRemote) :=
  match f with
  | .found r => .ok (some r)
  | .notFound => .ok none
  | .httpError _ => .ok none
  | .connectionError m => .error m

/-- `AzureRMMonitorDataCollectionEndpoint.exec_module` (lines 247-302),
decision and act phases.  An exception propagating out of `get_by_name`
aborts `exec_module` before any mutation (`.error`).  `updateIdentity` is the
boolean result of the external `update_single_managed_identity` collaborator
(from `module_utils`, not under `src/`); it is `false` when the `identity`
parameter is not supplied (`self.update_identity` stays `None`).
When the resource exists and `state == 'present'`, only
`update_tags or self.update_identity` triggers the update call; the other
desired attributes are not compared. -/
def mdceExec (p : MdceParams) (f : HttpFetchOutcome MdceRemote) (updateIdentity : Bool) :
    Except String RunResult :=
  match mdceGetByName f with
  | .error m => .error m
  | .ok (some remote) =>
    if p.state = "present" then
      let updateTags := (mergeTags remote.tags p.tags).1
      if updateTags || updateIdentity then
        .ok { changed := true, calls := if p.checkMode then [] else [MutCall.update] }
      else
        .ok { changed := false, calls := [] }
    else
      .ok { changed := true, calls := if p.checkMode then [] else [MutCall.delete] }
  | .ok none =>
    if p.state = "present" then
      .ok { changed := true, calls := if p.checkMode then [] else [MutCall.create] }
    else
      .ok { changed := false, calls := [] }

/-- Follows the spec's words (Step 3, Compare), for the Data Collection
Endpoint attribute set: the diff contains every attribute explicitly present
in `desired` whose value differs from the corresponding `remote` attribute
(set-equality via the tag-merge collaborator for `tags`, exact equality for
the scalar attributes).  This is the spec-side definition used to check the
code's decision against the spec's `compare`. -/
def mdceSpecDiff (p : MdceParams) (r : MdceRemote) : List String :=
  (if (mergeTags r.tags p.tags).1 then ["tags"] else []) ++
  (match p.description with
   | none => []
   | some d => if r.description = some d then [] else ["description"]) ++
  (match p.kind with
   | none => []
   | some k => if r.kind = some k then [] else ["kind"]) ++
  (match p.networkAclsPublicAccess with
   | none => []
   | some n => if r.networkAclsPublicAccess = some n then [] else ["network_acls"])

/-! ## azure_rm_monitordatacollectionrule.py -/

/-- The fields of the remote Data Collection Rule used by the decision (only
its tags feed the update decision). -/
structure MdcrRemote where
  tags : Tags
deriving DecidableEq, Repr

/-- Module parameters of `azure_rm_monitordatacollectionrule` relevant to the
reconcile decision. -/
structure MdcrParams where
  state : String
  checkMode : Bool
  tags : Tags
  description : Option String
deriving DecidableEq, Repr

/-- `AzureRMMonitorDataCollectionrule.get_by_name` (lines 326-334): like the
endpoint module, every `HttpResponseError` (404 and other HTTP error
responses) is caught and logged and the function returns `None`, while a
connection-level failure is not an `HttpResponseError` and propagates. -/
def mdcrGetByName (f : HttpFetchOutcome MdcrRemote) : Except String (Option MdcrRemote) :=
  match f with
  | .found r => .ok (some r)
  | .notFound => .ok none
  | .httpError _ => .ok none
  | .connectionError m => .error m

/-- `AzureRMMonitorDataCollectionrule.exec_module` (lines 282-324), decision
and act phases; an exception propagating out of `get_by_name` aborts the
invocation before any mutation.  When the rule exists and
`state == 'present'`, only `update_tags` drives the update call. -/
def mdcrExec (p : MdcrParams) (f : HttpFetchOutcome MdcrRemote) : Except String RunResult :=
  match mdcrGetByName f with
  | .error m => .error m
  | .ok (some remote) =>
    if p.state = "present" then
      if (mergeTags remote.tags p.tags).1 then
        .ok { changed := true, calls := if p.checkMode then [] else [MutCall.update] }
      else
        .ok { changed := false, calls := [] }
    else
      .ok { changed := true, calls := if p.checkMode then [] else [MutCall.delete] }
  | .ok none =>
    if p.state = "present" then
      .ok { changed := true, calls := if p.checkMode then [] else [MutCall.create] }
    else
      .ok { changed := false, calls := [] }

/-! ## azure_rm_datafactory.py -/

/-- The fields of the remote Data Factory used by the decision
(`pip_to_dict` projection, restricted to the attributes the decision reads). -/
structure DfRemote where
  tags : Tags
  publicNetworkAccess : Option String
deriving DecidableEq, Repr

/-- Module parameters of `azure_rm_datafactory` relevant to the reconcile
decision.  `tags = none` models an unset `tags` parameter
(`self.tags is None`). -/
structure DfParams where
  state : String
  checkMode : Bool
  tags : Option Tags
  publicNetworkAccess : Option String
deriving DecidableEq, Repr

/-- `AzureRMDataFactory.get_item` (lines 325-332): only `ResourceNotFoundError`
is caught (`pass`); any other exception propagates out of `exec_module` and
aborts the invocation. -/
def dfGetItem (f : FetchOutcome DfRemote) : Except String (Option DfRemote) :=
  match f with
  | .found r => .ok (some r)
  | .notFound => .ok none
  | .transportError m => .error m

/-- Line 266-270 of `azure_rm_datafactory.py`: tags contribute to `changed`
only when the `tags` parameter is set, via `update_tags`. -/
def dfTagsChanged (remoteTags : Tags) (paramTags : Option Tags) : Bool :=
  match paramTags with
  | none => false
  | some t => (mergeTags remoteTags t).1

/-- Line 271-274: `public_network_access` contributes to `changed` only when
the parameter is set and differs from the remote value. -/
def dfPnaChanged (p : DfParams) (r : DfRemote) : Bool :=
  match p.publicNetworkAccess with
  | none => false
  | some v => decide (r.publicNetworkAccess ≠ some v)

/-- `AzureRMDataFactory.exec_module` (lines 253-322), decision and act
phases.  `mutFails = true` models the SDK mutation call raising: both
`create_or_update` and `delete` wrap their call in `try/except` and turn a
failure into `self.fail` (an aborted invocation, `.error`).  The single
`create_or_update` SDK call is recorded as `MutCall.update` when it runs on
the existing-resource path and as `MutCall.create` on the absent-resource
path. -/
def dfExec (p : DfParams) (f : FetchOutcome DfRemote) (mutFails : Bool) :
    Except String RunResult :=
  match dfGetItem f with
  | .error m => .error m
  | .ok (some remote) =>
    if p.state = "present" then
      let changed := dfTagsChanged remote.tags p.tags || dfPnaChanged p remote
      if p.checkMode then
        .ok { changed := changed, calls := [] }
      else if changed then
        if mutFails then .error "Create fail"
        else .ok { changed := true, calls := [MutCall.update] }
      else
        .ok { changed := false, calls := [] }
    else
      if p.checkMode then
        .ok { changed := true, calls := [] }
      else if mutFails then .error "Delete fail"
      else .ok { changed := true, calls := [MutCall.delete] }
  | .ok none =>
    if p.state = "present" then
      if p.checkMode then
        .ok { changed := true, calls := [] }
      else if mutFails then .error "Create fail"
      else .ok { changed := true, calls := [MutCall.create] }
    else
      .ok { changed := false, calls := [] }

/-! ## azure_rm_hybridcompute.py -/

/-- The remote Arc machine; its content does not feed the decision, only its
presence does. -/
structure HcMachine where
  name : String
deriving DecidableEq, Repr

/-- Module parameters of `azure_rm_hybridcompute`. -/
structure HcParams where
  state : String
  checkMode : Bool
deriving DecidableEq, Repr

/-- `AzureRMHybridCompute.get` (lines 264-269): only `ResourceNotFoundError`
is caught; other exceptions propagate and abort the invocation. -/
def hcGet (f : FetchOutcome HcMachine) : Except String (Option HcMachine) :=
  match f with
  | .found r => .ok (some r)
  | .notFound => .ok none
  | .transportError m => .error m

/-- `AzureRMHybridCompute.exec_module` (lines 245-262): when
`state == 'present'` the body is `pass` — no create (or any other mutation)
is ever attempted and `changed` stays `False`; when `state == 'absent'`,
`changed = True` and `delete_hybrid_compute` runs only outside check mode and
only when the machine was found. -/
def hcExec (p : HcParams) (f : FetchOutcome HcMachine) : Except String RunResult :=
  match hcGet f with
  | .error m => .error m
  | .ok machine =>
    if p.state = "present" then
      .ok { changed := false, calls := [] }
    else
      if !p.checkMode && machine.isSome then
        .ok { changed := true, calls := [MutCall.delete] }
      else
        .ok { changed := false, calls := [] }

/-! ## azure_rm_adserviceprincipal.py -/

/-- The fields of the remote service principal used by the decision
(`to_dict` projection, restricted to what `check_update` reads). -/
structure AdSp where
  appRoleAssignmentRequired : Option Bool
deriving DecidableEq, Repr

/-- Module parameters of `azure_rm_adserviceprincipal` relevant to the
decision (the module does not support check mode). -/
structure AdspParams where
  state : String
  appRoleAssignmentRequired : Option Bool
deriving DecidableEq, Repr

/-- `AzureRMADServicePrincipal.get_resource` (lines 173-183): the `try` body
returns the parsed resource (or `None` on a Graph error payload); `except
Exception` catches everything else, logs, and the function returns `None`. -/
def adspGetResource (f : FetchOutcome AdSp) : Option AdSp :=
  match f with
  | .found r => some r
  | .notFound => none
  | .transportError _ => none

/-- `AzureRMADServicePrincipal.check_update` (lines 185-189):
`app_role_assignment_required is not None and != response value`. -/
def adspCheckUpdate (p : AdspParams) (r : AdSp) : Bool :=
  match p.appRoleAssignmentRequired with
  | none => false
  | some v => decide (r.appRoleAssignmentRequired ≠ some v)

/-- `AzureRMADServicePrincipal.exec_module` (lines 118-145), decision and act
phases; the mutation helpers set `changed = True` after the Graph call. -/
def adspExec (p : AdspParams) (f : FetchOutcome AdSp) : RunResult :=
  match adspGetResource f with
  | some remote =>
    if p.state = "present" then
      if adspCheckUpdate p remote then
        { changed := true, calls := [MutCall.update] }
      else
        { changed := false, calls := [] }
    else
      { changed := true, calls := [MutCall.delete] }
  | none =>
    if p.state = "present" then
      { changed := true, calls := [MutCall.create] }
    else
      { changed := false, calls := [] }

/-! ## azure_rm_openshiftmanagedcluster.py -/

/-- The remote OpenShift cluster response; only its presence feeds the
decision in `exec_module`. -/
structure OsCluster where
  name : String
deriving DecidableEq, Repr

/-- `AzureRMOpenShiftManagedClusters.get_resource` (lines 924-946): the whole
`query`/parse sequence sits in a `try` whose `except Exception` only logs
("Did not find the OpenShiftManagedCluster instance."); `found` stays `False`
and the function returns `False`.  Every failure — transport errors
included — is therefore reported as absence. -/
def osGetResource (f : FetchOutcome OsCluster) : Option OsCluster :=
  match f with
  | .found r => some r
  | .notFound => none
  | .transportError _ => none

/-- The delete-confirmation loop at lines 855-856
(`while self.get_resource(): time.sleep(20)`), observed for `fuel`
iterations: the loop has exited within the first `fuel` checks exactly when
some check reported absence.  There is no timeout parameter anywhere in the
loop. -/
def osLoopDone (polls : Nat → FetchOutcome OsCluster) (fuel : Nat) : Bool :=
  (List.range fuel).any fun k => (osGetResource (polls k)).isNone

/-- The delete-confirmation loop terminates (for the given sequence of poll
outcomes) when it exits after some finite number of checks. -/
def osLoopTerminates (polls : Nat → FetchOutcome OsCluster) : Prop :=
  ∃ fuel, osLoopDone polls fuel = true

/-- `AzureRMOpenShiftManagedClusters.exec_module` (lines 808-869), decision
and act phases.  `first` is the outcome of the initial `get_resource` call,
`polls` the outcomes of the delete-confirmation polls.  The result is `none`
when the invocation has not finished within `fuel` delete-poll iterations
(the code's `while` loop has no other exit), `some (.error ...)` when the
module calls `self.fail`, and `some (.ok ...)` otherwise.  The module fails
with "module doesn't support cluster update yet" whenever the cluster exists
and `state == 'present'` (line 831); no comparison with the desired state is
performed. -/
def osExec (state : String) (checkMode : Bool) (first : FetchOutcome OsCluster)
    (polls : Nat → FetchOutcome OsCluster) (fuel : Nat) :
    Option (Except String RunResult) :=
  match osGetResource first with
  | none =>
    if state = "absent" then
      some (.ok { changed := false, calls := [] })
    else
      if checkMode then some (.ok { changed := true, calls := [] })
      else some (.ok { changed := true, calls := [MutCall.create] })
  | some _ =>
    if state = "absent" then
      if checkMode then some (.ok { changed := true, calls := [] })
      else if osLoopDone polls fuel then
        some (.ok { changed := true, calls := [MutCall.delete] })
      else none
    else
      some (.error "module doesn't support cluster update yet")

/-- Association-list update with Python dict-assignment semantics
(`body[k] = v`): replace the value of an existing key in place, else append
the new key at the end. -/
def setKey (k : String) (v : Option String) :
    List (String × Option String) → List (String × Option String)
  | [] => [(k, v)]
  | (k2, v2) :: rest => if k2 = k then (k, v) :: rest else (k2, v2) :: setKey k v rest

/-- The `master_profile` suboptions after Ansible argument processing: every
suboption key is present in the dict (unset ones carry `None`), and
`encryption_at_host` always carries a value because its arg spec declares
`default='Disabled'` (lines 612-616). -/
structure MasterProfileArgs where
  vm_size : Option String
  subnet_id : String
  encryption_at_host : String
  disk_encryption_set_id : Option String
deriving DecidableEq, Repr

/-- The `master_profile` branch of the kwargs loop in `exec_module`
(lines 758-766).  Because argument processing materializes every suboption
key, each `if 'x' in kwargs[key].keys()` test succeeds, so the four
assignments all run, in source order: `subnetId`, then `encryptionAtHost :=
disk_encryption_set_id`, then `encryptionAtHost := encryption_at_host`
(overwriting the previous assignment), then `vmSize`. -/
def buildMasterProfile (mp : MasterProfileArgs) : List (String × Option String) :=
  setKey "vmSize" mp.vm_size
    (setKey "encryptionAtHost" (some mp.encryption_at_host)
      (setKey "encryptionAtHost" mp.disk_encryption_set_id
        (setKey "subnetId" (some mp.subnet_id) [])))

/-- The `cluster_profile` suboptions (each may be unset). -/
structure ClusterProfileArgs where
  pull_secret : Option String
  cluster_resource_group_id : Option String
  domain : Option String
  version : Option String
  fips_validated_modules : Option String
deriving DecidableEq, Repr

/-- One step of the `cluster_profile` branch of the kwargs loop
(lines 730-742): `if not kwargs[key].get(item): continue` skips an item whose
value is falsy — `None` or the empty string. -/
def addIfTruthy (k : String) (v : Option String) (b : List (String × Option String)) :
    List (String × Option String) :=
  match v with
  | none => b
  | some s => if s = "" then b else setKey k (some s) b

/-- The `cluster_profile` branch of the kwargs loop (lines 728-742), iterating
over `pull_secret`, `cluster_resource_group_id`, `domain`, `version`,
`fips_validated_modules` in that order. -/
def buildClusterProfile (cp : ClusterProfileArgs) : List (String × Option String) :=
  addIfTruthy "fipsValidatedModules" cp.fips_validated_modules
    (addIfTruthy "version" cp.version
      (addIfTruthy "domain" cp.domain
        (addIfTruthy "resourceGroupId" cp.cluster_resource_group_id
          (addIfTruthy "pullSecret" cp.pull_secret []))))

/-- The alphabet of the first `random.choice` in `random_id` (line 954). -/
def lowercaseChars : List Char := "abcdefghijklmnopqrstuvwxyz".toList

/-- The alphabet of the remaining seven `random.choice` calls (line 955). -/
def alnumChars : List Char := "abcdefghijklmnopqrstuvwxyz1234567890".toList

/-- `AzureRMOpenShiftManagedClusters.random_id` (lines 953-957): one random
lowercase letter followed by seven random characters from the 36-character
lowercase-alphanumeric alphabet.  The random choices are made explicit as a
stream `c` of naturals; `c i` selects the character of position `i`. -/
def randomId (c : Nat → Nat) : List Char :=
  lowercaseChars.getD (c 0 % 26) 'a' ::
    (List.range 7).map (fun i => alnumChars.getD (c (i + 1) % 36) 'a')

/-- Line 985's condition on the body's `clusterProfile`: `'domain' not in
...['clusterProfile'] or not ...['clusterProfile']['domain']` — the key is
missing, or holds `None`, or holds the empty string. -/
def domainMissingOrFalsy (cp : List (String × Option String)) : Bool :=
  match cp.lookup "domain" with
  | none => true
  | some none => true
  | some (some s) => s = ""

/-- Lines 979-980 of `set_default`: default the pull secret to the empty
string when absent. -/
def defaultPullSecret (cp : List (String × Option String)) :
    List (String × Option String) :=
  if (cp.lookup "pullSecret").isNone then setKey "pullSecret" (some "") cp else cp

/-- Lines 981-983 of `set_default`: default the managed resource group id
when absent. -/
def defaultResourceGroupId (subscriptionId name : String)
    (cp : List (String × Option String)) : List (String × Option String) :=
  if (cp.lookup "resourceGroupId").isNone then
    setKey "resourceGroupId"
      (some ("/subscriptions/" ++ subscriptionId ++ "/resourceGroups/" ++ name ++ "-cluster")) cp
  else cp

/-- Lines 984-986 of `set_default`: replace a missing or falsy domain by
`self.random_id()`. -/
def defaultDomain (c : Nat → Nat) (cp : List (String × Option String)) :
    List (String × Option String) :=
  if domainMissingOrFalsy cp then
    setKey "domain" (some (String.mk (randomId c))) cp
  else cp

/-- The `clusterProfile` part of `AzureRMOpenShiftManagedClusters.set_default`
(lines 979-986), in source order. -/
def setDefaultClusterProfile (subscriptionId name : String) (c : Nat → Nat)
    (cp : List (String × Option String)) : List (String × Option String) :=
  defaultDomain c (defaultResourceGroupId subscriptionId name (defaultPullSecret cp))

/-- The `clusterProfile` of the create body, as `exec_module` then
`create_update_resource`/`set_default` produce it from the `cluster_profile`
module parameter. -/
def osCreateClusterProfile (subscriptionId name : String) (cp : ClusterProfileArgs)
    (c : Nat → Nat) : List (String × Option String) :=
  setDefaultClusterProfile subscriptionId name c (buildClusterProfile cp)

/-! ## Helper lemmas -/

/-- The calls recorded by an invocation that may abort (an aborted invocation
invoked no hook that succeeded after the abort). -/
def exCalls : Except String RunResult → List MutCall
  | .ok r => r.calls
  | .error _ => []

/-- The calls recorded by an OpenShift invocation (`none` = the delete poll
has not finished yet). -/
def osCalls : Option (Except String RunResult) → List MutCall
  | some e => exCalls e
  | none => []

/-- `changed` agrees with "some mutation hook was invoked" on a completed
invocation. -/
def changedMatchesCalls : Except String RunResult → Bool
  | .ok r => r.changed == !r.calls.isEmpty
  | .error _ => true

/-- `changedMatchesCalls` lifted to the OpenShift result shape. -/
def osChangedMatchesCalls : Option (Except String RunResult) → Bool
  | some e => changedMatchesCalls e
  | none => true

theorem lookup_setKey_self (k : String) (v : Option String)
    (l : List (String × Option String)) : (setKey k v l).lookup k = some v := by
  induction l with
  | nil => simp [setKey]
  | cons kv rest ih =>
    obtain ⟨k2, v2⟩ := kv
    by_cases h : k2 = k
    · simp [setKey, h]
    · simp [setKey, h, List.lookup_cons, beq_false_of_ne (Ne.symm h), ih]

theorem lookup_setKey_ne (k' k : String) (v : Option String)
    (l : List (String × Option String)) (h : k' ≠ k) :
    (setKey k v l).lookup k' = l.lookup k' := by
  induction l with
  | nil => simp [setKey, List.lookup_cons, beq_false_of_ne h]
  | cons kv rest ih =>
    obtain ⟨k2, v2⟩ := kv
    by_cases h2 : k2 = k
    · subst h2
      simp [setKey, List.lookup_cons, beq_false_of_ne h]
    · simp [setKey, h2, List.lookup_cons, ih]

theorem lookup_addIfTruthy_ne (k' k : String) (v : Option String)
    (b : List (String × Option String)) (h : k' ≠ k) :
    (addIfTruthy k v b).lookup k' = b.lookup k' := by
  cases v with
  | none => rfl
  | some s =>
    by_cases hs : s = ""
    · simp [addIfTruthy, hs]
    · simp [addIfTruthy, hs, lookup_setKey_ne k' k _ b h]

/-- When the `cluster_profile.domain` parameter is unset or the empty string,
the kwargs loop leaves no `domain` key in the body's `clusterProfile`. -/
theorem lookup_domain_buildClusterProfile (cp : ClusterProfileArgs)
    (h : cp.domain = none ∨ cp.domain = some "") :
    (buildClusterProfile cp).lookup "domain" = none := by
  unfold buildClusterProfile
  rw [lookup_addIfTruthy_ne _ _ _ _ (by decide),
      lookup_addIfTruthy_ne _ _ _ _ (by decide)]
  have hd : addIfTruthy "domain" cp.domain
      (addIfTruthy "resourceGroupId" cp.cluster_resource_group_id
        (addIfTruthy "pullSecret" cp.pull_secret [])) =
      addIfTruthy "resourceGroupId" cp.cluster_resource_group_id
        (addIfTruthy "pullSecret" cp.pull_secret []) := by
    rcases h with h | h <;> simp [h, addIfTruthy]
  rw [hd, lookup_addIfTruthy_ne _ _ _ _ (by decide),
      lookup_addIfTruthy_ne _ _ _ _ (by decide)]
  rfl

theorem lookup_domain_defaultPullSecret (cp : List (String × Option String)) :
    (defaultPullSecret cp).lookup "domain" = cp.lookup "domain" := by
  unfold defaultPullSecret
  split
  · exact lookup_setKey_ne _ _ _ _ (by decide)
  · rfl

theorem lookup_domain_defaultResourceGroupId (sid nm : String)
    (cp : List (String × Option String)) :
    (defaultResourceGroupId sid nm cp).lookup "domain" = cp.lookup "domain" := by
  unfold defaultResourceGroupId
  split
  · exact lookup_setKey_ne _ _ _ _ (by decide)
  · rfl

/-- When the incoming `clusterProfile` has no `domain` key, `set_default`
installs `random_id()` as the domain. -/
theorem lookup_domain_setDefault (sid nm : String) (c : Nat → Nat)
    (cp : List (String × Option String)) (h : cp.lookup "domain" = none) :
    (setDefaultClusterProfile sid nm c cp).lookup "domain"
      = some (some (String.mk (randomId c))) := by
  unfold setDefaultClusterProfile defaultDomain
  have h2 : (defaultResourceGroupId sid nm (defaultPullSecret cp)).lookup "domain" = none := by
    rw [lookup_domain_defaultResourceGroupId, lookup_domain_defaultPullSecret, h]
  rw [show domainMissingOrFalsy (defaultResourceGroupId sid nm (defaultPullSecret cp)) = true by
    unfold domainMissingOrFalsy
    rw [h2]]
  simp only [if_true]
  exact lookup_setKey_self _ _ _

theorem getD_mem_of_lt (l : List Char) (n : Nat) (d : Char) (h : n < l.length) :
    l.getD n d ∈ l := by
  rw [List.getD_eq_getElem l d h]
  exact List.getElem_mem h

/-! ## Claims -/

/-- C1, counterexample.  The claim says a failure during fetch other than the
API's 404 answer is surfaced as a `LookupFailure` that aborts the invocation
before any create/update/delete call, and is never mapped to NotFound.  In
`azure_rm_monitordatacollectionendpoint.py`, `get_by_name` catches every
`HttpResponseError` — an HTTP 500 error response included — and returns
`None`: at this concrete input (state=present, no check mode, fetch failing
with HTTP 500) the invocation does not abort, reports `changed = true`, and
proceeds to call the create hook. -/
theorem C1_counterexample :
    mdceExec { state := "present", checkMode := false, tags := [], description := none,
               kind := none, networkAclsPublicAccess := none }
      (HttpFetchOutcome.httpError "HTTP 500 internal server error") false
      = .ok { changed := true, calls := [MutCall.create] } := rfl

/-- C1, amended: in the monitor data collection modules a non-404 HTTP error
response during fetch (an `HttpResponseError` such as an HTTP 500) is caught
inside the lookup helper, only logged, and treated exactly like NotFound —
the invocation is not aborted, and in the endpoint module a `state=present`
invocation outside check mode then proceeds to invoke the create hook with
`changed = true`; a connection-level failure (`ServiceRequestError` class,
not an `HttpResponseError`) instead propagates and aborts the invocation
before any mutation call, though as an unhandled exception, not as a
`LookupFailure`.  In the OpenShift module, whose `get_resource` catches every
`Exception`, each of these failures is treated as NotFound. -/
theorem C1_transport_error_mapped_to_notfound
    (pm : MdceParams) (um : Bool) (pr : MdcrParams) (m : String)
    (hp : pm.state = "present") (hc : pm.checkMode = false)
    (hrp : pr.state = "present") (hrc : pr.checkMode = false) :
    mdceGetByName (HttpFetchOutcome.httpError m) = .ok (none : Option MdceRemote) ∧
    mdceExec pm (HttpFetchOutcome.httpError m) um
      = .ok { changed := true, calls := [MutCall.create] } ∧
    mdceExec pm (HttpFetchOutcome.connectionError m) um = .error m ∧
    mdcrGetByName (HttpFetchOutcome.httpError m) = .ok (none : Option MdcrRemote) ∧
    mdcrExec pr (HttpFetchOutcome.httpError m)
      = .ok { changed := true, calls := [MutCall.create] } ∧
    mdcrExec pr (HttpFetchOutcome.connectionError m) = .error m ∧
    osGetResource (FetchOutcome.transportError m) = none := by
  refine ⟨rfl, ?_, rfl, rfl, ?_, rfl, rfl⟩
  · simp [mdceExec, mdceGetByName, hp, hc]
  · simp [mdcrExec, mdcrGetByName, hrp, hrc]

/-- C1, witness for the amended theorem. -/
theorem C1_witness :
    mdceGetByName (HttpFetchOutcome.httpError "fetch failed") = .ok (none : Option MdceRemote) ∧
    mdceExec { state := "present", checkMode := false, tags := [], description := some "d",
               kind := none, networkAclsPublicAccess := none }
      (HttpFetchOutcome.httpError "fetch failed") false
      = .ok { changed := true, calls := [MutCall.create] } ∧
    mdceExec { state := "present", checkMode := false, tags := [], description := some "d",
               kind := none, networkAclsPublicAccess := none }
      (HttpFetchOutcome.connectionError "fetch failed") false = .error "fetch failed" ∧
    mdcrGetByName (HttpFetchOutcome.httpError "fetch failed") = .ok (none : Option MdcrRemote) ∧
    mdcrExec { state := "present", checkMode := false, tags := [], description := none }
      (HttpFetchOutcome.httpError "fetch failed")
      = .ok { changed := true, calls := [MutCall.create] } ∧
    mdcrExec { state := "present", checkMode := false, tags := [], description := none }
      (HttpFetchOutcome.connectionError "fetch failed") = .error "fetch failed" ∧
    osGetResource (FetchOutcome.transportError "fetch failed") = none :=
  C1_transport_error_mapped_to_notfound
    { state := "present", checkMode := false, tags := [], description := some "d",
      kind := none, networkAclsPublicAccess := none }
    false
    { state := "present", checkMode := false, tags := [], description := none }
    "fetch failed" rfl rfl rfl rfl

/-- C2, counterexample.  The claim says the delete-confirmation wait is
bounded by a caller-supplied timeout and terminates in every execution.  The
loop at lines 855-856 of `azure_rm_openshiftmanagedcluster.py`
(`while self.get_resource(): time.sleep(20)`) takes no timeout: on the
concrete execution whose every poll finds the cluster still present, the
loop never exits. -/
theorem C2_counterexample :
    osLoopTerminates (fun _ => FetchOutcome.found { name := "cluster" }) = False := by
  apply eq_false
  rintro ⟨fuel, h⟩
  simp [osLoopDone, osGetResource] at h

/-- C2, amended: the delete-confirmation wait has no caller-supplied timeout
and no `PollTimeout` error; it terminates exactly when some poll reports the
resource absent (a transport error during a poll also counts as absence,
because `get_resource` swallows it).  When every poll finds the resource, the
wait is infinite. -/
theorem C2_loop_terminates_iff_eventually_absent (polls : Nat → FetchOutcome OsCluster) :
    osLoopTerminates polls ↔ ∃ k, osGetResource (polls k) = none := by
  unfold osLoopTerminates osLoopDone
  constructor
  · rintro ⟨fuel, h⟩
    rw [List.any_eq_true] at h
    obtain ⟨k, _, hnone⟩ := h
    exact ⟨k, Option.isNone_iff_eq_none.mp hnone⟩
  · rintro ⟨k, hk⟩
    refine ⟨k + 1, ?_⟩
    rw [List.any_eq_true]
    exact ⟨k, List.mem_range.mpr (Nat.lt_succ_self k), by simp [hk]⟩

/-- C3, counterexample.  The claim says the Update decision is driven by a
diff over every attribute explicitly present in the desired state.  At this
concrete input the desired `description` ("new") differs from the remote one
("old") — the spec-side diff is `["description"]`, non-empty — yet
`azure_rm_monitordatacollectionendpoint.py` reports `changed = false` and
invokes no hook, because its decision only consults the tag merge and the
identity collaborator. -/
theorem C3_counterexample :
    mdceSpecDiff
        { state := "present", checkMode := false, tags := [], description := some "new",
          kind := none, networkAclsPublicAccess := none }
        { tags := [], description := some "old", kind := none,
          networkAclsPublicAccess := none } = ["description"] ∧
    mdceExec
        { state := "present", checkMode := false, tags := [], description := some "new",
          kind := none, networkAclsPublicAccess := none }
        (HttpFetchOutcome.found
          { tags := [], description := some "old", kind := none,
            networkAclsPublicAccess := none }) false
      = .ok { changed := false, calls := [] } := ⟨by decide, rfl⟩

/-- C3, amended: when the resource is Found and `state = present`, the
monitor data collection endpoint module updates exactly when the tag merge
reports a change or the identity collaborator requests an identity update,
and the rule module exactly when the tag merge reports a change; differences
in the other explicitly supplied attributes (description, kind,
network_acls) never trigger an Update. -/
theorem C3_update_driven_by_tags_and_identity_only
    (pm : MdceParams) (rm : MdceRemote) (um : Bool)
    (pr : MdcrParams) (rr : MdcrRemote)
    (hm : pm.state = "present") (hr : pr.state = "present") :
    mdceExec pm (HttpFetchOutcome.found rm) um
      = .ok { changed := (mergeTags rm.tags pm.tags).1 || um,
              calls := if ((mergeTags rm.tags pm.tags).1 || um) && !pm.checkMode
                       then [MutCall.update] else [] } ∧
    mdcrExec pr (HttpFetchOutcome.found rr)
      = .ok { changed := (mergeTags rr.tags pr.tags).1,
              calls := if (mergeTags rr.tags pr.tags).1 && !pr.checkMode
                       then [MutCall.update] else [] } := by
  constructor
  · cases hm1 : (mergeTags rm.tags pm.tags).1 <;> cases um <;> cases hcm : pm.checkMode <;>
      simp [mdceExec, mdceGetByName, hm, hm1, hcm]
  · cases hr1 : (mergeTags rr.tags pr.tags).1 <;> cases hcr : pr.checkMode <;>
      simp [mdcrExec, mdcrGetByName, hr, hr1, hcr]

/-- C3, witness for the amended theorem. -/
theorem C3_witness :
    mdceExec { state := "present", checkMode := false, tags := [("a", "1")],
               description := none, kind := none, networkAclsPublicAccess := none }
        (HttpFetchOutcome.found
          { tags := [], description := none, kind := none,
            networkAclsPublicAccess := none }) false
      = .ok { changed := (mergeTags [] [("a", "1")]).1 || false,
              calls := if ((mergeTags [] [("a", "1")]).1 || false) && !false
                       then [MutCall.update] else [] } ∧
    mdcrExec { state := "present", checkMode := false, tags := [], description := none }
        (HttpFetchOutcome.found { tags := [] })
      = .ok { changed := (mergeTags [] []).1,
              calls := if (mergeTags [] []).1 && !false then [MutCall.update] else [] } :=
  C3_update_driven_by_tags_and_identity_only
    { state := "present", checkMode := false, tags := [("a", "1")],
      description := none, kind := none, networkAclsPublicAccess := none }
    { tags := [], description := none, kind := none, networkAclsPublicAccess := none }
    false
    { state := "present", checkMode := false, tags := [], description := none }
    { tags := [] } rfl rfl

/-- C4, counterexample.  The claim says every invocation where the identity
resolves to an existing resource, the remote state equals the desired state
and `wantPresent` is true ends with action=None, `changed=false` and no
failure.  In `azure_rm_openshiftmanagedcluster.py` (lines 817-831) any
invocation that finds the cluster with `state=present` calls
`self.fail("module doesn't support cluster update yet")` — the desired state
is never even compared — so at this concrete input (cluster found, desired
identical to remote, which the decision ignores) the invocation fails
instead of succeeding unchanged. -/
theorem C4_counterexample :
    osExec "present" false (FetchOutcome.found { name := "x" })
      (fun _ => FetchOutcome.notFound) 1
      = some (Except.error "module doesn't support cluster update yet") := rfl

/-- C4, amended: in the datafactory, AD service principal and monitor data
collection endpoint modules, an invocation that finds the resource with
`state=present` and no attribute difference (tag merge reports no change, the
other compared attributes are equal) ends with `changed=false`, no mutation
hook invoked and no failure; the OpenShift cluster module instead fails every
found-with-`state=present` invocation with "module doesn't support cluster
update yet", whether or not the states are equal. -/
theorem C4_no_diff_no_action
    (pd : DfParams) (rd : DfRemote) (mf : Bool)
    (pa : AdspParams) (ra : AdSp) (pm : MdceParams) (rm : MdceRemote)
    (os : OsCluster) (polls : Nat → FetchOutcome OsCluster) (fuel : Nat)
    (hd1 : pd.state = "present")
    (hd2 : dfTagsChanged rd.tags pd.tags = false)
    (hd3 : dfPnaChanged pd rd = false)
    (ha1 : pa.state = "present") (ha2 : adspCheckUpdate pa ra = false)
    (hm1 : pm.state = "present") (hm2 : (mergeTags rm.tags pm.tags).1 = false) :
    dfExec pd (FetchOutcome.found rd) mf = .ok { changed := false, calls := [] } ∧
    adspExec pa (FetchOutcome.found ra) = { changed := false, calls := [] } ∧
    mdceExec pm (HttpFetchOutcome.found rm) false = .ok { changed := false, calls := [] } ∧
    osExec "present" false (FetchOutcome.found os) polls fuel
      = some (Except.error "module doesn't support cluster update yet") := by
  refine ⟨?_, ?_, ?_, rfl⟩
  · simp [dfExec, dfGetItem, hd1, hd2, hd3]
  · simp [adspExec, adspGetResource, ha1, ha2]
  · simp [mdceExec, mdceGetByName, hm1, hm2]

/-- C4, witness for the amended theorem. -/
theorem C4_witness :
    dfExec { state := "present", checkMode := false, tags := some [("a", "1")],
             publicNetworkAccess := some "Enabled" }
        (FetchOutcome.found { tags := [("a", "1")], publicNetworkAccess := some "Enabled" })
        false = .ok { changed := false, calls := [] } ∧
    adspExec { state := "present", appRoleAssignmentRequired := some true }
        (FetchOutcome.found { appRoleAssignmentRequired := some true })
      = { changed := false, calls := [] } ∧
    mdceExec { state := "present", checkMode := false, tags := [("a", "1")],
               description := none, kind := none, networkAclsPublicAccess := none }
        (HttpFetchOutcome.found
          { tags := [("a", "1")], description := none, kind := none,
            networkAclsPublicAccess := none }) false
      = .ok { changed := false, calls := [] } ∧
    osExec "present" false (FetchOutcome.found { name := "x" })
      (fun _ => FetchOutcome.notFound) 0
      = some (Except.error "module doesn't support cluster update yet") :=
  C4_no_diff_no_action
    { state := "present", checkMode := false, tags := some [("a", "1")],
      publicNetworkAccess := some "Enabled" }
    { tags := [("a", "1")], publicNetworkAccess := some "Enabled" } false
    { state := "present", appRoleAssignmentRequired := some true }
    { appRoleAssignmentRequired := some true }
    { state := "present", checkMode := false, tags := [("a", "1")],
      description := none, kind := none, networkAclsPublicAccess := none }
    { tags := [("a", "1")], description := none, kind := none,
      networkAclsPublicAccess := none }
    { name := "x" } (fun _ => FetchOutcome.notFound) 0
    rfl (by decide) (by decide) rfl (by decide) rfl (by decide)

/-- C5, counterexample.  The claim says every invocation with identity
resolving to NotFound, `wantPresent=true` and `dryRun=false` calls the create
hook exactly once and reports `changed=true`.  `azure_rm_hybridcompute.py`
(lines 245-262) does nothing on the `state=present` path (`pass`): at this
concrete input (machine not found, state=present, no check mode) it invokes
no hook and reports `changed=false`. -/
theorem C5_counterexample :
    hcExec { state := "present", checkMode := false } FetchOutcome.notFound
      = .ok { changed := false, calls := [] } := rfl

/-- C5, amended: in the datafactory and monitor data collection endpoint
modules, a NotFound + `state=present` + non-check-mode invocation calls the
create hook exactly once with the desired parameters and reports
`changed=true`; the hybridcompute module supports no create at all — its
`state=present` branch is a no-op that reports `changed=false` and invokes
nothing. -/
theorem C5_create_when_absent
    (pd : DfParams) (pm : MdceParams) (um : Bool)
    (hd1 : pd.state = "present") (hd2 : pd.checkMode = false)
    (hm1 : pm.state = "present") (hm2 : pm.checkMode = false) :
    dfExec pd FetchOutcome.notFound false
      = .ok { changed := true, calls := [MutCall.create] } ∧
    mdceExec pm HttpFetchOutcome.notFound um
      = .ok { changed := true, calls := [MutCall.create] } ∧
    hcExec { state := "present", checkMode := false } FetchOutcome.notFound
      = .ok { changed := false, calls := [] } := by
  refine ⟨?_, ?_, rfl⟩
  · simp [dfExec, dfGetItem, hd1, hd2]
  · simp [mdceExec, mdceGetByName, hm1, hm2]

/-- C5, witness for the amended theorem. -/
theorem C5_witness :
    dfExec { state := "present", checkMode := false, tags := none,
             publicNetworkAccess := none } FetchOutcome.notFound false
      = .ok { changed := true, calls := [MutCall.create] } ∧
    mdceExec { state := "present", checkMode := false, tags := [], description := none,
               kind := none, networkAclsPublicAccess := none } HttpFetchOutcome.notFound false
      = .ok { changed := true, calls := [MutCall.create] } ∧
    hcExec { state := "present", checkMode := false } FetchOutcome.notFound
      = .ok { changed := false, calls := [] } :=
  C5_create_when_absent
    { state := "present", checkMode := false, tags := none, publicNetworkAccess := none }
    { state := "present", checkMode := false, tags := [], description := none,
      kind := none, networkAclsPublicAccess := none }
    false rfl rfl rfl rfl

/-- C6: with check mode on (`dryRun=true`) none of the embedded modules
invokes a create, update or delete hook, whatever action the decide step
computed — the monitor endpoint and rule modules guard every mutation with
`if not self.check_mode`, the datafactory module only logs in check mode, the
hybridcompute delete requires `not self.check_mode`, and the OpenShift module
returns from `exec_module` before `create_update_resource`/`delete_resource`
when `self.check_mode` holds. -/
theorem C6_dry_run_never_mutates
    (pm : MdceParams) (fm : HttpFetchOutcome MdceRemote) (um : Bool)
    (pr : MdcrParams) (fr : HttpFetchOutcome MdcrRemote)
    (pd : DfParams) (fd : FetchOutcome DfRemote) (md : Bool)
    (ph : HcParams) (fh : FetchOutcome HcMachine)
    (st : String) (f : FetchOutcome OsCluster)
    (polls : Nat → FetchOutcome OsCluster) (fuel : Nat)
    (hm : pm.checkMode = true) (hr : pr.checkMode = true)
    (hd : pd.checkMode = true) (hh : ph.checkMode = true) :
    exCalls (mdceExec pm fm um) = [] ∧
    exCalls (mdcrExec pr fr) = [] ∧
    exCalls (dfExec pd fd md) = [] ∧
    exCalls (hcExec ph fh) = [] ∧
    osCalls (osExec st true f polls fuel) = [] := by
  refine ⟨?_, ?_, ?_, ?_, ?_⟩
  · cases fm with
    | found rm =>
        by_cases hs : pm.state = "present" <;>
          cases hm1 : (mergeTags rm.tags pm.tags).1 <;> cases um <;>
          simp [mdceExec, mdceGetByName, hs, hm, hm1, exCalls]
    | notFound =>
        by_cases hs : pm.state = "present" <;>
          simp [mdceExec, mdceGetByName, hs, hm, exCalls]
    | httpError m =>
        by_cases hs : pm.state = "present" <;>
          simp [mdceExec, mdceGetByName, hs, hm, exCalls]
    | connectionError m => simp [mdceExec, mdceGetByName, exCalls]
  · cases fr with
    | found rr =>
        by_cases hs : pr.state = "present" <;>
          cases hr1 : (mergeTags rr.tags pr.tags).1 <;>
          simp [mdcrExec, mdcrGetByName, hs, hr, hr1, exCalls]
    | notFound =>
        by_cases hs : pr.state = "present" <;>
          simp [mdcrExec, mdcrGetByName, hs, hr, exCalls]
    | httpError m =>
        by_cases hs : pr.state = "present" <;>
          simp [mdcrExec, mdcrGetByName, hs, hr, exCalls]
    | connectionError m => simp [mdcrExec, mdcrGetByName, exCalls]
  · by_cases hs : pd.state = "present" <;> cases fd <;>
      simp [dfExec, dfGetItem, hs, hd, exCalls]
  · by_cases hs : ph.state = "present" <;> cases fh <;>
      simp [hcExec, hcGet, hs, hh, exCalls]
  · by_cases hs : st = "absent" <;> cases f <;>
      simp [osExec, osGetResource, hs, osCalls, exCalls]

/-- C6, witness. -/
theorem C6_witness :
    exCalls (mdceExec { state := "present", checkMode := true, tags := [("a", "1")],
                        description := none, kind := none, networkAclsPublicAccess := none }
        HttpFetchOutcome.notFound false) = [] ∧
    exCalls (mdcrExec { state := "absent", checkMode := true, tags := [], description := none }
        (HttpFetchOutcome.found { tags := [] })) = [] ∧
    exCalls (dfExec { state := "present", checkMode := true, tags := none,
                      publicNetworkAccess := none } FetchOutcome.notFound false) = [] ∧
    exCalls (hcExec { state := "absent", checkMode := true }
        (FetchOutcome.found { name := "m" })) = [] ∧
    osCalls (osExec "absent" true (FetchOutcome.found { name := "x" })
        (fun _ => FetchOutcome.notFound) 0) = [] :=
  C6_dry_run_never_mutates
    { state := "present", checkMode := true, tags := [("a", "1")],
      description := none, kind := none, networkAclsPublicAccess := none }
    HttpFetchOutcome.notFound false
    { state := "absent", checkMode := true, tags := [], description := none }
    (HttpFetchOutcome.found { tags := [] })
    { state := "present", checkMode := true, tags := none, publicNetworkAccess := none }
    FetchOutcome.notFound false
    { state := "absent", checkMode := true }
    (FetchOutcome.found { name := "m" })
    "absent" (FetchOutcome.found { name := "x" }) (fun _ => FetchOutcome.notFound) 0
    rfl rfl rfl rfl

/-- C7, counterexample.  The claim says no invocation reports `changed=true`
without a successful remote mutation having occurred.  A check-mode
datafactory invocation with the factory absent and `state=present` reports
`changed=true` while invoking no mutation hook at all. -/
theorem C7_counterexample :
    dfExec { state := "present", checkMode := true, tags := none,
             publicNetworkAccess := none } FetchOutcome.notFound false
      = .ok { changed := true, calls := [] } := rfl

/-- C7, amended: outside check mode the invariant holds — a completed
invocation of the datafactory, hybridcompute or OpenShift module reports
`changed=true` exactly when it invoked a mutation hook and that hook
succeeded (a failed hook makes the module abort with `self.fail`, returning
no result at all); in check mode `changed=true` only predicts the action and
no mutation occurs. -/
theorem C7_changed_iff_mutation
    (pd : DfParams) (fd : FetchOutcome DfRemote) (md : Bool)
    (ph : HcParams) (fh : FetchOutcome HcMachine)
    (st : String) (f : FetchOutcome OsCluster)
    (polls : Nat → FetchOutcome OsCluster) (fuel : Nat)
    (hd : pd.checkMode = false) :
    changedMatchesCalls (dfExec pd fd md) = true ∧
    changedMatchesCalls (hcExec ph fh) = true ∧
    osChangedMatchesCalls (osExec st false f polls fuel) = true := by
  refine ⟨?_, ?_, ?_⟩
  · cases fd with
    | transportError m => simp [dfExec, dfGetItem, changedMatchesCalls]
    | notFound =>
        by_cases hs : pd.state = "present" <;> cases md <;>
          simp [dfExec, dfGetItem, hs, hd, changedMatchesCalls]
    | found rd =>
        by_cases hs : pd.state = "present" <;> cases md <;>
          cases hct : dfTagsChanged rd.tags pd.tags <;>
          cases hcp : dfPnaChanged pd rd <;>
          simp [dfExec, dfGetItem, hs, hd, hct, hcp, changedMatchesCalls]
  · cases fh with
    | transportError m => simp [hcExec, hcGet, changedMatchesCalls]
    | notFound =>
        by_cases hs : ph.state = "present" <;> cases hcm : ph.checkMode <;>
          simp [hcExec, hcGet, hs, hcm, changedMatchesCalls]
    | found x =>
        by_cases hs : ph.state = "present" <;> cases hcm : ph.checkMode <;>
          simp [hcExec, hcGet, hs, hcm, changedMatchesCalls]
  · cases f with
    | transportError m =>
        by_cases hs : st = "absent" <;>
          simp [osExec, osGetResource, hs, osChangedMatchesCalls, changedMatchesCalls]
    | notFound =>
        by_cases hs : st = "absent" <;>
          simp [osExec, osGetResource, hs, osChangedMatchesCalls, changedMatchesCalls]
    | found x =>
        by_cases hs : st = "absent" <;> cases hld : osLoopDone polls fuel <;>
          simp [osExec, osGetResource, hs, hld, osChangedMatchesCalls, changedMatchesCalls]

/-- C7, witness for the amended theorem. -/
theorem C7_witness :
    changedMatchesCalls (dfExec { state := "present", checkMode := false, tags := none,
                                  publicNetworkAccess := none }
        FetchOutcome.notFound false) = true ∧
    changedMatchesCalls (hcExec { state := "absent", checkMode := false }
        (FetchOutcome.found { name := "m" })) = true ∧
    osChangedMatchesCalls (osExec "present" false FetchOutcome.notFound
        (fun _ => FetchOutcome.notFound) 0) = true :=
  C7_changed_iff_mutation
    { state := "present", checkMode := false, tags := none, publicNetworkAccess := none }
    FetchOutcome.notFound false
    { state := "absent", checkMode := false }
    (FetchOutcome.found { name := "m" })
    "present" FetchOutcome.notFound (fun _ => FetchOutcome.notFound) 0
    rfl

/-- C8: the two tag-merge scenarios of the claim, settled against the
spec-modelled Tag Merge collaborator (its implementation, `update_tags`, is
in `module_utils/azure_rm_common.py`, outside `src/`): merging existing
`a:1` with desired `b:2` yields `a:1, b:2` with `changed = true`, and
merging desired `a:1` into existing `a:1` yields `changed = false` with the
tags unchanged. -/
theorem C8_tag_merge_scenarios :
    mergeTags [("a", "1")] [("b", "2")] = (true, [("a", "1"), ("b", "2")]) ∧
    mergeTags [("a", "1")] [("a", "1")] = (false, [("a", "1")]) := by decide

/-- C9: whenever `master_profile.disk_encryption_set_id` is supplied, the
body's `masterProfile` (lines 758-766 of
`azure_rm_openshiftmanagedcluster.py`) contains exactly the keys `subnetId`,
`encryptionAtHost` and `vmSize` — no disk-encryption-set key at all — and
`encryptionAtHost` holds the `encryption_at_host` value (which always exists,
its arg spec having `default='Disabled'`): the supplied
`disk_encryption_set_id` was written under `encryptionAtHost` and then
overwritten, i.e. silently discarded. -/
theorem C9_disk_encryption_set_id_discarded (mp : MasterProfileArgs) (v : String)
    (h : mp.disk_encryption_set_id = some v) :
    buildMasterProfile mp =
      [("subnetId", some mp.subnet_id),
       ("encryptionAtHost", some mp.encryption_at_host),
       ("vmSize", mp.vm_size)] := by
  simp [buildMasterProfile, setKey]

/-- C9, witness. -/
theorem C9_witness :
    buildMasterProfile { vm_size := some "Standard_D8s_v3", subnet_id := "subnet1",
                         encryption_at_host := "Disabled",
                         disk_encryption_set_id := some "des1" } =
      [("subnetId", some "subnet1"), ("encryptionAtHost", some "Disabled"),
       ("vmSize", some "Standard_D8s_v3")] :=
  C9_disk_encryption_set_id_discarded
    { vm_size := some "Standard_D8s_v3", subnet_id := "subnet1",
      encryption_at_host := "Disabled", disk_encryption_set_id := some "des1" }
    "des1" rfl

/-- C10: when `cluster_profile.domain` is absent or the empty string, the
create body's `clusterProfile.domain` is `random_id()` — a string of length 8
whose first character is a lowercase letter — and the body is not a
deterministic function of the module parameters: the two concrete random
streams `fun _ => 0` and `fun _ => 1` turn the same parameters into the
distinct domains "aaaaaaaa" and "bbbbbbbb". -/
theorem C10_random_domain (sid nm : String) (cp : ClusterProfileArgs) (c : Nat → Nat)
    (h : cp.domain = none ∨ cp.domain = some "") :
    (osCreateClusterProfile sid nm cp c).lookup "domain"
        = some (some (String.mk (randomId c))) ∧
    (randomId c).length = 8 ∧
    (randomId c).headD 'z' ∈ lowercaseChars ∧
    String.mk (randomId (fun _ => 0)) = "aaaaaaaa" ∧
    String.mk (randomId (fun _ => 1)) = "bbbbbbbb" := by
  refine ⟨?_, ?_, ?_, by decide, by decide⟩
  · exact lookup_domain_setDefault sid nm c _ (lookup_domain_buildClusterProfile cp h)
  · simp [randomId]
  · show lowercaseChars.getD (c 0 % 26) 'a' ∈ lowercaseChars
    exact getD_mem_of_lt _ _ _ (Nat.mod_lt _ (by decide))

/-- C10, witness. -/
theorem C10_witness :
    (osCreateClusterProfile "sub1" "myCluster"
        { pull_secret := none, cluster_resource_group_id := none, domain := none,
          version := none, fips_validated_modules := none } (fun _ => 0)).lookup "domain"
        = some (some (String.mk (randomId (fun _ => 0)))) ∧
    (randomId (fun _ => 0)).length = 8 ∧
    (randomId (fun _ => 0)).headD 'z' ∈ lowercaseChars ∧
    String.mk (randomId (fun _ => 0)) = "aaaaaaaa" ∧
    String.mk (randomId (fun _ => 1)) = "bbbbbbbb" :=
  C10_random_domain "sub1" "myCluster"
    { pull_secret := none, cluster_resource_group_id := none, domain := none,
      version := none, fips_validated_modules := none }
    (fun _ => 0) (Or.inl rfl)
